import Mathlib

/-!
Verification of the query-routing core of the Groq Video Summarizer API
(`src/main.py`).  The routing logic (`VideoAgent.process_query`), the URL
builders (`web_search`, `fact_checking`), the completion call (`query_groq`)
and the request boundary (`analyze_video`) are embedded as pure Lean
functions; the external HTTP collaborator is passed in as an oracle.
-/

/-- Python substring test at the head: `charsStartWith n h` holds when the
character list `h` begins with `n`. -/
def charsStartWith : List Char → List Char → Bool
  | [], _ => true
  | _ :: _, [] => false
  | a :: as, b :: bs => a == b && charsStartWith as bs

/-- Python's `needle in haystack` on character lists: scan every tail. -/
def charsContain (needle : List Char) : List Char → Bool
  | [] => charsStartWith needle []
  | b :: bs => charsStartWith needle (b :: bs) || charsContain needle bs

/-- Python's `needle in haystack` for strings (substring containment). -/
def str_contains (haystack needle : String) : Bool :=
  charsContain needle.data haystack.data

/-- Python's `str.lower()` restricted to its ASCII action, which is all the
routing keywords exercise. -/
def str_lower (s : String) : String :=
  ⟨s.data.map Char.toLower⟩

/-- The four routing intents of `VideoAgent.process_query` (the `type` field
of the returned dictionary). -/
inductive Intent
  | summary
  | web_search
  | fact_check
  | unknown
deriving DecidableEq

/-- The dictionary returned by `VideoAgent.process_query`:
`{"type": ..., "result": ...}`. -/
structure RoutingResult where
  type : Intent
  result : String
deriving DecidableEq

/-- The observable part of the HTTP response that `query_groq` reads:
`status_code`, the raw body `text`, and `content`, which models
`response.json()["choices"][0]["message"]["content"]`. -/
structure GroqResponse where
  status_code : Nat
  text : String
  content : String
deriving DecidableEq

/-- `query_groq` (src/main.py lines 38-57), with the network modelled by an
oracle `post` from the prompt to the HTTP response: on status 200 return the
message content, otherwise return the formatted error string. -/
def query_groq (post : String → GroqResponse) (prompt : String) : String :=
  let response := post prompt
  if response.status_code == 200 then
    response.content
  else
    "Groq API Error: " ++ toString response.status_code ++ " - " ++ response.text

/-- `web_search` (src/main.py lines 61-62). -/
def web_search (query : String) : String :=
  "https://www.duckduckgo.com/?q=" ++ query

/-- `fact_checking` (src/main.py lines 64-65). -/
def fact_checking (query : String) : String :=
  "https://www.duckduckgo.com/?q=" ++ query

/-- The prompt built by `VideoAgent.summarize_video` (src/main.py lines
74-77). -/
def summarize_prompt (transcript user_query : String) : String :=
  "Here is the transcript of a video:\n\n" ++ transcript ++
    "\n\nNow respond to the following request:\n" ++ user_query

/-- `VideoAgent.summarize_video` (src/main.py lines 73-78). -/
def summarize_video (post : String → GroqResponse) (transcript user_query : String) : String :=
  query_groq post (summarize_prompt transcript user_query)

/-- The Summary keyword list of src/main.py line 88. -/
def summary_keywords : List String :=
  ["summarize", "key points", "summary", "main ideas"]

/-- The WebSearch keyword list of src/main.py line 90. -/
def web_search_keywords : List String :=
  ["search", "find more", "look up", "additional info"]

/-- The FactCheck keyword list of src/main.py line 92. -/
def fact_check_keywords : List String :=
  ["fact-check", "verify", "is this true", "check"]

/-- `VideoAgent.process_query` (src/main.py lines 86-95): lower-case the
query, test the three keyword lists in order, dispatch to the matching
handler, fall back to the fixed unknown message. -/
def process_query (post : String → GroqResponse) (transcript user_query : String) :
    RoutingResult :=
  let user_query_lower := str_lower user_query
  if summary_keywords.any (fun keyword => str_contains user_query_lower keyword) then
    { type := Intent.summary, result := summarize_video post transcript user_query }
  else if web_search_keywords.any (fun keyword => str_contains user_query_lower keyword) then
    { type := Intent.web_search, result := web_search user_query }
  else if fact_check_keywords.any (fun keyword => str_contains user_query_lower keyword) then
    { type := Intent.fact_check, result := fact_checking user_query }
  else
    { type := Intent.unknown, result := "Sorry, I couldn\x27t understand the query." }

/-- Spec-side predicate: case-insensitive substring containment of the query
against a keyword set (spec section 3, Invariant). -/
def keyword_match (keywords : List String) (query : String) : Bool :=
  keywords.any fun keyword => str_contains (str_lower query) (str_lower keyword)

/-- Spec-side router (spec section 4.1): first matching keyword set wins in
the priority order Summary > WebSearch > FactCheck, Unknown otherwise. -/
def route_intent (query : String) : Intent :=
  if keyword_match summary_keywords query then Intent.summary
  else if keyword_match web_search_keywords query then Intent.web_search
  else if keyword_match fact_check_keywords query then Intent.fact_check
  else Intent.unknown

/- Fallible versions for the request boundary: the transcription call and the
outbound HTTP call may raise, modelled by `Except String`. -/

/-- `query_groq` with a fallible network call: `requests.post` may raise, and
an `Except.error` propagates out of the function. -/
def query_groq_exc (post : String → Except String GroqResponse) (prompt : String) :
    Except String String :=
  match post prompt with
  | Except.error e => Except.error e
  | Except.ok response =>
      Except.ok (if response.status_code == 200 then
          response.content
        else
          "Groq API Error: " ++ toString response.status_code ++ " - " ++ response.text)

/-- `VideoAgent.process_query` with a fallible completion call: only the
Summary branch performs the outbound call, so only it can fail. -/
def process_query_exc (post : String → Except String GroqResponse)
    (transcript user_query : String) : Except String RoutingResult :=
  let user_query_lower := str_lower user_query
  if summary_keywords.any (fun keyword => str_contains user_query_lower keyword) then
    match query_groq_exc post (summarize_prompt transcript user_query) with
    | Except.error e => Except.error e
    | Except.ok r => Except.ok { type := Intent.summary, result := r }
  else if web_search_keywords.any (fun keyword => str_contains user_query_lower keyword) then
    Except.ok { type := Intent.web_search, result := web_search user_query }
  else if fact_check_keywords.any (fun keyword => str_contains user_query_lower keyword) then
    Except.ok { type := Intent.fact_check, result := fact_checking user_query }
  else
    Except.ok { type := Intent.unknown, result := "Sorry, I couldn\x27t understand the query." }

/-- The body of the `try` block of the `/analyze` endpoint (src/main.py lines
115-125): transcribe, then route. `transcribe` is the outcome of
`transcribe_audio` on the uploaded video. -/
def analyze_body (transcribe : Except String String)
    (post : String → Except String GroqResponse) (user_query : String) :
    Except String RoutingResult :=
  match transcribe with
  | Except.error e => Except.error e
  | Except.ok transcript => process_query_exc post transcript user_query

/-- The HTTP outcome of the `/analyze` endpoint: either the analysis
dictionary or the `JSONResponse(status_code=500, ...)` error envelope. -/
inductive AnalyzeResponse
  | success (analysis : RoutingResult)
  | jsonError (status_code : Nat) (error : String)
deriving DecidableEq

/-- `analyze_video` (src/main.py lines 113-127): run the body, catch any
exception and surface it as a 500 envelope carrying `str(e)`. -/
def analyze_video (transcribe : Except String String)
    (post : String → Except String GroqResponse) (user_query : String) :
    AnalyzeResponse :=
  match analyze_body transcribe post user_query with
  | Except.ok r => AnalyzeResponse.success r
  | Except.error e => AnalyzeResponse.jsonError 500 e

/-- A constant success oracle, used to instantiate theorems at concrete
inputs. -/
def okPost : String → GroqResponse :=
  fun _ => { status_code := 200, text := "", content := "model output" }

/-- A constant 429 oracle. -/
def ratePost : String → GroqResponse :=
  fun _ => { status_code := 429, text := "Rate limit exceeded", content := "" }

/-- A fallible oracle that always raises. -/
def downPost : String → Except String GroqResponse :=
  fun _ => Except.error "connection refused"

/-- A fallible oracle that always succeeds. -/
def okPostExc : String → Except String GroqResponse :=
  fun _ => Except.ok { status_code := 200, text := "", content := "model output" }

/- ### Basic lemmas about substring containment -/

theorem charsStartWith_iff (n : List Char) :
    ∀ h : List Char, charsStartWith n h = true ↔ ∃ t, h = n ++ t := by
  induction n with
  | nil =>
      intro h
      simp [charsStartWith]
  | cons a as ih =>
      intro h
      cases h with
      | nil =>
          simp [charsStartWith]
      | cons b bs =>
          simp only [charsStartWith, Bool.and_eq_true, beq_iff_eq, ih bs,
            List.cons_append, List.cons.injEq]
          constructor
          · rintro ⟨rfl, t, rfl⟩
            exact ⟨t, rfl, rfl⟩
          · rintro ⟨t, rfl, rfl⟩
            exact ⟨rfl, t, rfl⟩

theorem charsContain_iff (n : List Char) :
    ∀ h : List Char, charsContain n h = true ↔ ∃ u v, h = u ++ n ++ v := by
  intro h
  induction h with
  | nil =>
      simp only [charsContain, charsStartWith_iff]
      constructor
      · rintro ⟨t, ht⟩
        exact ⟨[], t, by simpa using ht⟩
      · rintro ⟨u, v, huv⟩
        rcases List.append_eq_nil.mp huv.symm with ⟨h1, h2⟩
        rcases List.append_eq_nil.mp h1 with ⟨rfl, rfl⟩
        exact ⟨[], by simp [h2]⟩
  | cons b bs ih =>
      simp only [charsContain, Bool.or_eq_true, charsStartWith_iff, ih]
      constructor
      · rintro (⟨t, ht⟩ | ⟨u, v, huv⟩)
        · exact ⟨[], t, by simpa using ht⟩
        · exact ⟨b :: u, v, by simp [huv]⟩
      · rintro ⟨u, v, huv⟩
        cases u with
        | nil =>
            exact Or.inl ⟨v, by simpa using huv⟩
        | cons c cs =>
            simp only [List.cons_append, List.cons.injEq] at huv
            exact Or.inr ⟨cs, v, huv.2⟩

theorem str_contains_iff (haystack needle : String) :
    str_contains haystack needle = true ↔
      ∃ u v, haystack.data = u ++ needle.data ++ v := by
  unfold str_contains
  exact charsContain_iff needle.data haystack.data

/-- A string contains any middle piece of an explicit three-part
concatenation. -/
theorem str_contains_middle (a b c : String) :
    str_contains (a ++ b ++ c) b = true := by
  rw [str_contains_iff]
  exact ⟨a.data, c.data, by simp [String.data_append]⟩

/- ### Bridging the spec-side match predicate with the code's condition -/

theorem any_lower_fixed (q : String) :
    ∀ ks : List String, (∀ k ∈ ks, str_lower k = k) →
      (ks.any fun k => str_contains (str_lower q) (str_lower k)) =
        ks.any fun k => str_contains (str_lower q) k := by
  intro ks
  induction ks with
  | nil => intro _; rfl
  | cons k ks ih =>
      intro hfix
      have hk : str_lower k = k := hfix k (by simp)
      have hks : ∀ k₂ ∈ ks, str_lower k₂ = k₂ := fun k₂ hm => hfix k₂ (by simp [hm])
      simp [List.any_cons, hk, ih hks]

theorem keyword_match_summary (q : String) :
    keyword_match summary_keywords q =
      summary_keywords.any fun k => str_contains (str_lower q) k := by
  unfold keyword_match
  exact any_lower_fixed q summary_keywords (by decide)

theorem keyword_match_web (q : String) :
    keyword_match web_search_keywords q =
      web_search_keywords.any fun k => str_contains (str_lower q) k := by
  unfold keyword_match
  exact any_lower_fixed q web_search_keywords (by decide)

theorem keyword_match_fact (q : String) :
    keyword_match fact_check_keywords q =
      fact_check_keywords.any fun k => str_contains (str_lower q) k := by
  unfold keyword_match
  exact any_lower_fixed q fact_check_keywords (by decide)

/-- Unfolding of `process_query` with the three conditions exposed. -/
theorem process_query_eq (post : String → GroqResponse) (t q : String) :
    process_query post t q =
      if summary_keywords.any (fun k => str_contains (str_lower q) k) then
        { type := Intent.summary, result := summarize_video post t q }
      else if web_search_keywords.any (fun k => str_contains (str_lower q) k) then
        { type := Intent.web_search, result := web_search q }
      else if fact_check_keywords.any (fun k => str_contains (str_lower q) k) then
        { type := Intent.fact_check, result := fact_checking q }
      else
        { type := Intent.unknown, result := "Sorry, I couldn\x27t understand the query." } :=
  rfl

/- ### Claim theorems -/

/-- C1: for every transcript and query, `process_query` chooses exactly one
Intent by case-insensitive substring containment of the query against the
fixed keyword set of each intent, testing Summary, then WebSearch, then
FactCheck, and returning at the first category with a matching keyword,
with Unknown chosen exactly when no category matches. -/
theorem route_chooses_exactly_one_intent (post : String → GroqResponse) (t q : String) :
    ((process_query post t q).type = Intent.summary ↔
      keyword_match summary_keywords q = true) ∧
    ((process_query post t q).type = Intent.web_search ↔
      (keyword_match summary_keywords q = false ∧
        keyword_match web_search_keywords q = true)) ∧
    ((process_query post t q).type = Intent.fact_check ↔
      (keyword_match summary_keywords q = false ∧
        keyword_match web_search_keywords q = false ∧
        keyword_match fact_check_keywords q = true)) ∧
    ((process_query post t q).type = Intent.unknown ↔
      (keyword_match summary_keywords q = false ∧
        keyword_match web_search_keywords q = false ∧
        keyword_match fact_check_keywords q = false)) := by
  rw [process_query_eq, keyword_match_summary, keyword_match_web, keyword_match_fact]
  cases h1 : summary_keywords.any fun k => str_contains (str_lower q) k <;>
    cases h2 : web_search_keywords.any fun k => str_contains (str_lower q) k <;>
      cases h3 : fact_check_keywords.any fun k => str_contains (str_lower q) k <;>
        simp [h1, h2, h3]

/-- C2: any query whose lower-casing contains the substring "summary" is
routed to the Summary intent, whatever other keywords occur in it. -/
theorem summary_keyword_always_wins (post : String → GroqResponse) (t q : String)
    (h : str_contains (str_lower q) "summary" = true) :
    (process_query post t q).type = Intent.summary := by
  have hc : (summary_keywords.any fun k => str_contains (str_lower q) k) = true := by
    simp [summary_keywords, List.any_cons, h]
  rw [process_query_eq, if_pos hc]

/-- Witness for C2 at the query "Give me a SUMMARY and verify it", which also
contains the FactCheck keyword "verify". -/
theorem summary_keyword_always_wins_witness :
    str_contains (str_lower "Give me a SUMMARY and verify it") "summary" = true ∧
    str_contains (str_lower "Give me a SUMMARY and verify it") "verify" = true ∧
    (process_query okPost "t" "Give me a SUMMARY and verify it").type = Intent.summary :=
  ⟨by decide, by decide,
    summary_keyword_always_wins okPost "t" "Give me a SUMMARY and verify it" (by decide)⟩

/-- C3: when the query matches a Summary keyword, `process_query` returns the
Summary intent with the CompletionService response to the prompt combining
the transcript and the query. -/
theorem summary_branch_forwards_completion (post : String → GroqResponse) (t q : String)
    (h : keyword_match summary_keywords q = true) :
    process_query post t q =
      { type := Intent.summary, result := query_groq post (summarize_prompt t q) } := by
  have hc : (summary_keywords.any fun k => str_contains (str_lower q) k) = true := by
    rw [← keyword_match_summary]; exact h
  rw [process_query_eq, if_pos hc]
  rfl

/-- Witness for C3 at the query "Please summarize this". -/
theorem summary_branch_forwards_completion_witness :
    keyword_match summary_keywords "Please summarize this" = true ∧
    process_query okPost "hello" "Please summarize this" =
      { type := Intent.summary,
        result := query_groq okPost (summarize_prompt "hello" "Please summarize this") } :=
  ⟨by decide,
    summary_branch_forwards_completion okPost "hello" "Please summarize this" (by decide)⟩

/-- C4: for every transcript, the query "can you search for more info" routes
to WebSearch with the search URL templated with the raw query. -/
theorem web_search_query_routes_to_url (post : String → GroqResponse) (t : String) :
    process_query post t "can you search for more info" =
      { type := Intent.web_search,
        result := "https://www.duckduckgo.com/?q=can you search for more info" } :=
  rfl

/-- C5: for every transcript, the query "please fact-check this claim" routes
to FactCheck with the search URL templated with the raw query. -/
theorem fact_check_query_routes_to_url (post : String → GroqResponse) (t : String) :
    process_query post t "please fact-check this claim" =
      { type := Intent.fact_check,
        result := "https://www.duckduckgo.com/?q=please fact-check this claim" } :=
  rfl

/-- C6: when no keyword of any of the three keyword sets occurs in the query
(case-insensitively), `process_query` returns the Unknown intent with the
fixed apology message. -/
theorem unknown_query_fixed_message (post : String → GroqResponse) (t q : String)
    (h1 : keyword_match summary_keywords q = false)
    (h2 : keyword_match web_search_keywords q = false)
    (h3 : keyword_match fact_check_keywords q = false) :
    process_query post t q =
      { type := Intent.unknown, result := "Sorry, I couldn\x27t understand the query." } := by
  rw [keyword_match_summary] at h1
  rw [keyword_match_web] at h2
  rw [keyword_match_fact] at h3
  rw [process_query_eq]
  simp [h1, h2, h3]

/-- Witness for C6 at the query "what is the weather". -/
theorem unknown_query_fixed_message_witness :
    keyword_match summary_keywords "what is the weather" = false ∧
    keyword_match web_search_keywords "what is the weather" = false ∧
    keyword_match fact_check_keywords "what is the weather" = false ∧
    process_query okPost "t" "what is the weather" =
      { type := Intent.unknown, result := "Sorry, I couldn\x27t understand the query." } :=
  ⟨by decide, by decide, by decide,
    unknown_query_fixed_message okPost "t" "what is the weather"
      (by decide) (by decide) (by decide)⟩

/-- String concatenation is associative (lifted from list append). -/
theorem str_append_assoc (a b c : String) : a ++ b ++ c = a ++ (b ++ c) := by
  apply String.ext
  simp [String.data_append, List.append_assoc]

/-- C7: when the oracle reports a non-success status, `query_groq` returns
the formatted error string, which embeds the status code and the body text
verbatim as substrings, and the result is determined by that single response
alone (no retry can change it). -/
theorem completion_error_embedded_verbatim (post : String → GroqResponse) (prompt : String)
    (h : (post prompt).status_code ≠ 200) :
    query_groq post prompt =
      "Groq API Error: " ++ toString (post prompt).status_code ++ " - " ++ (post prompt).text ∧
    str_contains (query_groq post prompt) (toString (post prompt).status_code) = true ∧
    str_contains (query_groq post prompt) (post prompt).text = true ∧
    ∀ post₂ : String → GroqResponse, post₂ prompt = post prompt →
      query_groq post₂ prompt = query_groq post prompt := by
  have hb : ((post prompt).status_code == 200) = false := by
    simpa using h
  have hq : query_groq post prompt =
      "Groq API Error: " ++ toString (post prompt).status_code ++ " - " ++ (post prompt).text := by
    unfold query_groq
    simp [hb]
  refine ⟨hq, ?_, ?_, ?_⟩
  · rw [hq, str_append_assoc ("Groq API Error: " ++ toString (post prompt).status_code)
      " - " (post prompt).text]
    exact str_contains_middle "Groq API Error: " (toString (post prompt).status_code)
      (" - " ++ (post prompt).text)
  · rw [hq, str_contains_iff]
    exact ⟨("Groq API Error: " ++ toString (post prompt).status_code ++ " - ").data, [],
      by simp [String.data_append]⟩
  · intro post₂ h₂
    unfold query_groq
    rw [h₂]

/-- Witness for C7 at a constant 429 oracle. -/
theorem completion_error_embedded_verbatim_witness :
    (ratePost "p").status_code ≠ 200 ∧
    query_groq ratePost "p" = "Groq API Error: 429 - Rate limit exceeded" ∧
    str_contains (query_groq ratePost "p") "429" = true ∧
    str_contains (query_groq ratePost "p") "Rate limit exceeded" = true := by
  have h := completion_error_embedded_verbatim ratePost "p" (by decide)
  exact ⟨by decide, by rw [h.1]; rfl, h.2.1, h.2.2.1⟩

/-- C8: the WebSearch and FactCheck handlers are extensionally equal: both
build the same search URL from the raw query. -/
theorem web_search_fact_check_extensionally_equal :
    ∀ q : String, web_search q = fact_checking q :=
  fun _ => rfl

/-- C9: the `/analyze` boundary is total (success or a 500 envelope, never
fatal), a transcription failure surfaces as the 500 envelope carrying its
message, and a completion failure in the Summary branch surfaces the same
way; the failing message is passed through verbatim, with no retry. -/
theorem boundary_catches_collaborator_failures (transcribe : Except String String)
    (post : String → Except String GroqResponse) (q t e : String) :
    ((∃ r, analyze_video transcribe post q = AnalyzeResponse.success r) ∨
      (∃ m, analyze_video transcribe post q = AnalyzeResponse.jsonError 500 m)) ∧
    (transcribe = Except.error e →
      analyze_video transcribe post q = AnalyzeResponse.jsonError 500 e) ∧
    (transcribe = Except.ok t → keyword_match summary_keywords q = true →
      post (summarize_prompt t q) = Except.error e →
      analyze_video transcribe post q = AnalyzeResponse.jsonError 500 e) := by
  refine ⟨?_, ?_, ?_⟩
  · cases hb : analyze_body transcribe post q with
    | ok r =>
        exact Or.inl ⟨r, by unfold analyze_video; rw [hb]⟩
    | error m =>
        exact Or.inr ⟨m, by unfold analyze_video; rw [hb]⟩
  · rintro rfl
    rfl
  · rintro rfl hk hpost
    have hc : (summary_keywords.any fun k => str_contains (str_lower q) k) = true := by
      rw [← keyword_match_summary]; exact hk
    unfold analyze_video analyze_body process_query_exc query_groq_exc
    simp [hc, hpost]

/-- Witness for C9: a transcription failure and a completion failure, each
surfaced as a 500 envelope with the collaborator's message. -/
theorem boundary_catches_collaborator_failures_witness :
    analyze_video (Except.error "media unreadable") okPostExc "q" =
      AnalyzeResponse.jsonError 500 "media unreadable" ∧
    analyze_video (Except.ok "t") downPost "summarize it" =
      AnalyzeResponse.jsonError 500 "connection refused" := by
  constructor
  · exact (boundary_catches_collaborator_failures (Except.error "media unreadable")
      okPostExc "q" "t" "media unreadable").2.1 rfl
  · exact (boundary_catches_collaborator_failures (Except.ok "t")
      downPost "summarize it" "t" "connection refused").2.2 rfl (by decide) rfl

/-- C10: the chosen intent depends only on the query, never on the
transcript; and outside the Summary branch the whole result is independent
of the transcript as well. -/
theorem intent_depends_only_on_query (post : String → GroqResponse) (t₁ t₂ q : String) :
    (process_query post t₁ q).type = (process_query post t₂ q).type ∧
    ((process_query post t₁ q).type ≠ Intent.summary →
      process_query post t₁ q = process_query post t₂ q) := by
  rw [process_query_eq post t₁ q, process_query_eq post t₂ q]
  cases h1 : summary_keywords.any fun k => str_contains (str_lower q) k <;>
    cases h2 : web_search_keywords.any fun k => str_contains (str_lower q) k <;>
      cases h3 : fact_check_keywords.any fun k => str_contains (str_lower q) k <;>
        simp [h1, h2, h3]

/-- Witness for C10 at a non-Summary query and two different transcripts. -/
theorem intent_depends_only_on_query_witness :
    (process_query okPost "first transcript" "what is the weather").type ≠ Intent.summary ∧
    process_query okPost "first transcript" "what is the weather" =
      process_query okPost "second transcript" "what is the weather" :=
  ⟨by decide,
    (intent_depends_only_on_query okPost "first transcript" "second transcript"
      "what is the weather").2 (by decide)⟩
